import Mathlib

set_option maxRecDepth 4000

/-!
Verification development for the razorpay-appwrite Appwrite function.

The repository ships several revisions of the same `index.js`; the embedding
below models each revision that the specification's claims refer to:

* `v1…`  : the first document of `src/index.js` (lines 1-318): `createOrder`
  with client-supplied totals, field whitelist, and `verifyPayment` with a
  fallback lookup by `razorpayOrderId`.
* `v3…`  : the third document of `src/index.js` (lines 637-951): `createOrder`
  "with product linkage" that fetches products but falls back to the
  client-supplied item price when the product is missing.
* `p1…`  : `src/unnamed/part_001`: `verifyPayment` with a mandatory `orderId`.
* `p2…`  : `src/unnamed/part_002`: `createOrder` that recomputes all prices
  from the catalog and fails hard on a missing product.

JavaScript `Number` values are modelled as `Int` (all monetary quantities in
the claims are integers; `NaN`/fractional corner cases are outside the
embedding's domain and are noted where relevant).  External collaborators
(Razorpay gateway, Appwrite document store) are modelled by explicit
parameters and by operation traces recorded in the result structures, so that
"no gateway call" / "no store write" claims are directly expressible.
-/

/-- JSON-like scalar values stored in an order document. -/
inductive JVal where
  | str : String → JVal
  | num : Int → JVal
  | null : JVal

deriving DecidableEq

/-- JavaScript truthiness for optional string fields: `null`/`undefined` and
the empty string are falsy; a non-empty string is truthy. -/
def truthyStr : Option String → Option String
  | some s => if s = "" then none else some s
  | none => none

/-! ### SHA-256 and HMAC-SHA256

`generateSignature` in every revision of the source is
`crypto.createHmac("sha256", secret).update(orderId + "|" + paymentId).digest("hex")`.
The Node `crypto` library is external to the repository, so HMAC-SHA256 is
implemented here directly from the standard (FIPS 180-4 / RFC 2104); the
test-vector theorems below check the implementation against published values.
Bytes are `Nat < 256`, words are `Nat < 2^32`. -/

/-- Truncate to a 32-bit word. -/
def w32 (n : Nat) : Nat := n % 4294967296

/-- Right rotation of a 32-bit word by `k` bits. -/
def rotr (k n : Nat) : Nat := (n / 2 ^ k + n * 2 ^ (32 - k)) % 4294967296

def shaCh (x y z : Nat) : Nat := (x &&& y) ^^^ ((x ^^^ 4294967295) &&& z)

def shaMaj (x y z : Nat) : Nat := (x &&& y) ^^^ (x &&& z) ^^^ (y &&& z)

def bigSigma0 (x : Nat) : Nat := rotr 2 x ^^^ rotr 13 x ^^^ rotr 22 x

def bigSigma1 (x : Nat) : Nat := rotr 6 x ^^^ rotr 11 x ^^^ rotr 25 x

def smallSigma0 (x : Nat) : Nat := rotr 7 x ^^^ rotr 18 x ^^^ x / 8

def smallSigma1 (x : Nat) : Nat := rotr 17 x ^^^ rotr 19 x ^^^ x / 1024

/-- The 64 SHA-256 round constants. -/
def shaK : List Nat :=
  [1116352408, 1899447441, 3049323471, 3921009573,
   961987163, 1508970993, 2453635748, 2870763221,
   3624381080, 310598401, 607225278, 1426881987,
   1925078388, 2162078206, 2614888103, 3248222580,
   3835390401, 4022224774, 264347078, 604807628,
   770255983, 1249150122, 1555081692, 1996064986,
   2554220882, 2821834349, 2952996808, 3210313671,
   3336571891, 3584528711, 113926993, 338241895,
   666307205, 773529912, 1294757372, 1396182291,
   1695183700, 1986661051, 2177026350, 2456956037,
   2730485921, 2820302411, 3259730800, 3345764771,
   3516065817, 3600352804, 4094571909, 275423344,
   430227734, 506948616, 659060556, 883997877,
   958139571, 1322822218, 1537002063, 1747873779,
   1955562222, 2024104815, 2227730452, 2361852424,
   2428436474, 2756734187, 3204031479, 3329325298]

/-- The eight 32-bit working variables of SHA-256. -/
structure Sha8 where
  a : Nat
  b : Nat
  c : Nat
  d : Nat
  e : Nat
  f : Nat
  g : Nat
  h : Nat

deriving DecidableEq

def shaRound (st : Sha8) (kw : Nat × Nat) : Sha8 :=
  let t1 := w32 (st.h + bigSigma1 st.e + shaCh st.e st.f st.g + kw.1 + kw.2)
  let t2 := w32 (bigSigma0 st.a + shaMaj st.a st.b st.c)
  ⟨w32 (t1 + t2), st.a, st.b, st.c, w32 (st.d + t1), st.e, st.f, st.g⟩

def extendStep (ws : List Nat) : List Nat :=
  let i := ws.length
  ws ++ [w32 (ws.getD (i - 16) 0 + smallSigma0 (ws.getD (i - 15) 0) +
              ws.getD (i - 7) 0 + smallSigma1 (ws.getD (i - 2) 0))]

/-- Extend the 16 words of a block to the 64-entry message schedule. -/
def extendTo64 (ws : List Nat) : List Nat :=
  (List.range 48).foldl (fun acc _ => extendStep acc) ws

/-- Big-endian 4-byte grouping; `fuel` is a structural-recursion bound. -/
def bytesToWords : Nat → List Nat → List Nat
  | 0, _ => []
  | _, [] => []
  | fuel + 1, bs =>
    (bs.getD 0 0 * 16777216 + bs.getD 1 0 * 65536 + bs.getD 2 0 * 256 + bs.getD 3 0)
      :: bytesToWords fuel (bs.drop 4)

/-- Split a padded message into 16-word blocks. -/
def toBlocks : Nat → List Nat → List (List Nat)
  | 0, _ => []
  | _, [] => []
  | fuel + 1, bs => bytesToWords 16 (bs.take 64) :: toBlocks fuel (bs.drop 64)

/-- SHA-256 padding: append 0x80, zeros, and the 64-bit big-endian bit length. -/
def shaPad (msg : List Nat) : List Nat :=
  let len := msg.length
  let zeros := (119 - len % 64) % 64
  let bits := 8 * len
  msg ++ 128 :: (List.replicate zeros 0 ++
    [bits / 72057594037927936 % 256, bits / 281474976710656 % 256,
     bits / 1099511627776 % 256, bits / 4294967296 % 256,
     bits / 16777216 % 256, bits / 65536 % 256, bits / 256 % 256, bits % 256])

def shaCompress (st : Sha8) (block : List Nat) : Sha8 :=
  let ws := extendTo64 block
  let r := (shaK.zip ws).foldl shaRound st
  ⟨w32 (st.a + r.a), w32 (st.b + r.b), w32 (st.c + r.c), w32 (st.d + r.d),
   w32 (st.e + r.e), w32 (st.f + r.f), w32 (st.g + r.g), w32 (st.h + r.h)⟩

def shaInit : Sha8 :=
  ⟨1779033703, 3144134277, 1013904242, 2773480762,
   1359893119, 2600822924, 528734635, 1541459225⟩

def wordBytes (w : Nat) : List Nat := [w / 16777216 % 256, w / 65536 % 256, w / 256 % 256, w % 256]

/-- SHA-256 of a byte list. -/
def sha256 (msg : List Nat) : List Nat :=
  let padded := shaPad msg
  let st := (toBlocks padded.length padded).foldl shaCompress shaInit
  wordBytes st.a ++ wordBytes st.b ++ wordBytes st.c ++ wordBytes st.d ++
  wordBytes st.e ++ wordBytes st.f ++ wordBytes st.g ++ wordBytes st.h

def hexChar (n : Nat) : Char := if n < 10 then Char.ofNat (48 + n) else Char.ofNat (87 + n)

def byteHex (b : Nat) : List Char := [hexChar (b / 16), hexChar (b % 16)]

/-- Lowercase hex encoding of a byte list (Node's digest("hex")). -/
def hexStr (bs : List Nat) : String := String.mk (bs.map byteHex).flatten

/-- UTF-8 encoding of a Unicode code point. -/
def charUtf8 (c : Nat) : List Nat :=
  if c < 128 then [c]
  else if c < 2048 then [192 + c / 64, 128 + c % 64]
  else if c < 65536 then [224 + c / 4096, 128 + c / 64 % 64, 128 + c % 64]
  else [240 + c / 262144, 128 + c / 4096 % 64, 128 + c / 64 % 64, 128 + c % 64]

/-- UTF-8 bytes of a string (Node hashes strings as UTF-8). -/
def strBytes (s : String) : List Nat := (s.data.map fun c => charUtf8 c.toNat).flatten

/-- HMAC-SHA256 (RFC 2104) with a 64-byte block size. -/
def hmacSha256 (key msg : List Nat) : List Nat :=
  let k0 := if 64 < key.length then sha256 key else key
  let kp := k0 ++ List.replicate (64 - k0.length) 0
  sha256 ((kp.map fun b => b ^^^ 92) ++ sha256 ((kp.map fun b => b ^^^ 54) ++ msg))

/-- src/index.js `generateSignature` (identical in every revision):
hex HMAC-SHA256 of `orderId + "|" + paymentId` under the shared secret. -/
def generateSignature (orderId paymentId secret : String) : String :=
  hexStr (hmacSha256 (strBytes secret) (strBytes (orderId ++ "|" ++ paymentId)))

/-! ### Shared helpers of the createOrder variants -/

/-- src/index.js `toPaise` (also part_002): for a numeric value that is a
positive integer below 1e6 the value is taken to be in rupees and multiplied
by 100; otherwise it is returned rounded.  On the integer domain the
fractional-part test of the source is always satisfied. -/
def toPaise (n : Int) : Int := if 0 < n ∧ n < 1000000 then n * 100 else n

deriving instance DecidableEq for Except

/-- Success payload of a createOrder action. -/
structure CreateOk where
  orderId : String
  razorpayOrderId : String
  amount : Int
  currency : String

deriving DecidableEq

/-! ### Variant v1: src/index.js lines 1-318, createOrder -/

/-- A line item as read by the v1 `createOrder`/`computeTotalFromItems`:
only the quantity aliases (`quantity`/`q`/`qty`) and the price aliases
(`price`/`unitPrice`) are ever read, modelled as one field each. -/
structure V1Item where
  quantity : Option Int
  price : Option Int

deriving DecidableEq

/-- The fields of a v1 createOrder payload that the source reads, plus
`extras`: arbitrary additional client-supplied keys (never read by the
code, present so that claims about them are expressible). -/
structure V1Payload where
  userId : Option String := none
  items : List V1Item := []
  shippingAddress : Option String := none
  currency : Option String := none
  subtotal : Option Int := none
  totalAmount : Option Int := none
  extras : List (String × JVal) := []

deriving DecidableEq

/-- src/index.js `computeTotalFromItems`: sums client-supplied
`quantity * price` with 0 defaults. -/
def computeTotalFromItems (items : List V1Item) : Int :=
  items.foldl (fun t it => t + it.quantity.getD 0 * it.price.getD 0) 0

/-- src/index.js `allowedFields`: the whitelist of order-document keys. -/
def allowedFields : List String :=
  ["userId", "items", "subtotal", "totalAmount", "currency", "shippingAddress",
   "paymentStatus", "paymentProvider", "paymentReference", "razorpayOrderId",
   "razorpayOrderObj", "razorpayPaymentId", "razorpaySignature"]

/-- Stand-in for `JSON.stringify(items)`: the claims only inspect keys and
numeric fields of the document, never the serialized text. -/
def serializeV1Items (items : List V1Item) : String :=
  toString items.length

/-- src/index.js `rawDocPayload` of the v1 createOrder (lines 121-135). -/
def v1RawDocPayload (uid : String) (p : V1Payload) (totalToUse : Int)
    (rOrderId : String) : List (String × JVal) :=
  [("userId", JVal.str uid),
   ("items", JVal.str (serializeV1Items p.items)),
   ("subtotal", JVal.num (p.subtotal.getD totalToUse)),
   ("totalAmount", JVal.num totalToUse),
   ("currency", JVal.str (p.currency.getD "INR")),
   ("shippingAddress", JVal.str (p.shippingAddress.getD "\x7b\x7d")),
   ("paymentStatus", JVal.str "created"),
   ("paymentProvider", JVal.str "razorpay"),
   ("paymentReference", JVal.null),
   ("razorpayOrderId", JVal.str rOrderId),
   ("razorpayOrderObj", JVal.str rOrderId),
   ("razorpayPaymentId", JVal.null),
   ("razorpaySignature", JVal.null)]

/-- src/index.js lines 137-140: keep only whitelisted keys. -/
def v1DocPayload (uid : String) (p : V1Payload) (totalToUse : Int)
    (rOrderId : String) : List (String × JVal) :=
  (v1RawDocPayload uid p totalToUse rOrderId).filter
    (fun kv => allowedFields.contains kv.1)

/-- Result of a run of the v1 createOrder, with traces of the amounts sent to
the payment gateway and of the documents written to the store. -/
structure V1CreateOut where
  result : Except String CreateOk
  gatewayAmounts : List Int
  storedDocs : List (List (String × JVal))

deriving DecidableEq

/-- src/index.js lines 89-95: `totalToUse` is the client-supplied
`totalAmount`, else the client-supplied `subtotal`, else the sum of
client-supplied item prices. -/
def v1TotalToUse (p : V1Payload) : Int :=
  match p.totalAmount with
  | some t => t
  | none =>
    match p.subtotal with
    | some s => s
    | none => computeTotalFromItems p.items

/-- src/index.js lines 79-170 `createOrderAction` (v1).  `gw` models
`razorpay.orders.create` (returns the provider order id), `docId` the
store-assigned document id. -/
def v1CreateOrder (gw : Int → Option String) (docId : String)
    (p : V1Payload) : V1CreateOut :=
  match truthyStr p.userId with
  | none => ⟨.error "userId required", [], []⟩
  | some uid =>
    if v1TotalToUse p ≤ 0 then
      ⟨.error "Invalid amount: pass subtotal/totalAmount or include item.price fields", [], []⟩
    else if toPaise (v1TotalToUse p) ≤ 0 then
      ⟨.error "Invalid amount after conversion to paise", [], []⟩
    else
      match gw (toPaise (v1TotalToUse p)) with
      | none => ⟨.error "Razorpay order creation failed", [toPaise (v1TotalToUse p)], []⟩
      | some rid =>
        ⟨.ok ⟨docId, rid, toPaise (v1TotalToUse p), p.currency.getD "INR"⟩,
         [toPaise (v1TotalToUse p)], [v1DocPayload uid p (v1TotalToUse p) rid]⟩

/-! ### Variant v1: src/index.js lines 173-227, verifyPayment -/

/-- The order-document fields that verifyPayment reads or writes. -/
structure VDoc where
  id : String
  paymentStatus : String
  paymentReference : Option String
  razorpayOrderId : Option String
  razorpayPaymentId : Option String
  razorpaySignature : Option String

deriving DecidableEq

/-- The fields of a verifyPayment payload. -/
structure VerifyPayload where
  orderId : Option String := none
  razorpayPaymentId : Option String := none
  razorpayOrderId : Option String := none
  razorpaySignature : Option String := none

deriving DecidableEq

/-- The update object of verifyPayment (lines 207-212): sets
`paymentStatus = "paid"` and records payment id and signature. -/
def vUpdateDoc (rpid rsig : String) (d : VDoc) : VDoc :=
  { d with paymentStatus := "paid", paymentReference := some rpid,
           razorpayPaymentId := some rpid, razorpaySignature := some rsig }

/-- Model of databases.updateDocument on the store: rewrite the document
with the given id, leave the rest unchanged. -/
def applyUpdate (i : String) (u : VDoc → VDoc) (store : List VDoc) : List VDoc :=
  store.map fun d => if d.id = i then u d else d

/-- Whether the store holds a document with the given id (an update of a
missing id throws in the source and is caught as a failure). -/
def containsId (store : List VDoc) (i : String) : Bool :=
  store.any fun d => d.id = i

/-- Result of a run of a verifyPayment action: outcome, the store after the
call, and traces of the lookup queries and update calls issued. -/
structure VerifyOut where
  result : Except String String
  store : List VDoc
  listCalls : List String
  updateCalls : List String

deriving DecidableEq

/-- The tail of the v1 verifyPayment once a document id is resolved
(lines 207-226): one `updateDocument` call; a store miss is the caught
update failure. -/
def v1VerifyFinish (store : List VDoc) (rpid rsig i : String)
    (lc : List String) : VerifyOut :=
  if containsId store i then
    ⟨.ok i, applyUpdate i (vUpdateDoc rpid rsig) store, lc, [i]⟩
  else ⟨.error "Failed to update order", store, lc, [i]⟩

/-- src/index.js lines 173-227 `verifyPaymentAction` (v1): the three provider
fields are mandatory, the signature is checked against `generateSignature`,
and the target document is `orderId` when given, otherwise the first match of
a `razorpayOrderId` lookup. -/
def v1Verify (secret : String) (store : List VDoc) (p : VerifyPayload) : VerifyOut :=
  match truthyStr p.razorpayPaymentId, truthyStr p.razorpayOrderId,
        truthyStr p.razorpaySignature with
  | some rpid, some roid, some rsig =>
    if rsig = generateSignature roid rpid secret then
      match truthyStr p.orderId with
      | some i => v1VerifyFinish store rpid rsig i []
      | none =>
        match (store.filter fun d => d.razorpayOrderId = some roid).head? with
        | some d => v1VerifyFinish store rpid rsig d.id [roid]
        | none =>
          ⟨.error "Order document not found for verification. Provide valid orderId or ensure DB contains razorpayOrderId.",
           store, [roid], []⟩
    else ⟨.error "Invalid signature", store, [], []⟩
  | _, _, _ =>
    ⟨.error "Missing verification fields (razorpayPaymentId, razorpayOrderId, razorpaySignature required)",
     store, [], []⟩

/-! ### Variant p1: src/unnamed/part_001, verifyPayment -/

/-- part_001 lines 116-146 `verifyPaymentAction`: all four fields, including
`orderId`, are mandatory; there is no lookup fallback.  The update is issued
directly against `orderId`. -/
def p1Verify (secret : String) (store : List VDoc) (p : VerifyPayload) : VerifyOut :=
  match truthyStr p.orderId, truthyStr p.razorpayPaymentId,
        truthyStr p.razorpayOrderId, truthyStr p.razorpaySignature with
  | some i, some rpid, some roid, some rsig =>
    if rsig = generateSignature roid rpid secret then
      if containsId store i then
        ⟨.ok i, applyUpdate i (vUpdateDoc rpid rsig) store, [], [i]⟩
      else ⟨.error "Failed to update order", store, [], [i]⟩
    else ⟨.error "Invalid signature", store, [], []⟩
  | _, _, _, _ => ⟨.error "Missing verification fields", store, [], []⟩

/-! ### Variant p2: src/unnamed/part_002, createOrder with catalog pricing -/

/-- A catalog product document as read by the pricing loops: the price-field
fallback chains of part_002 (`price`/`pricePerPiece`/`price_per_piece`) and of
the index.js linkage variant (`price`/`pricePerPiece`/`mrp`). -/
structure ProductDoc where
  price : Option Int := none
  pricePerPiece : Option Int := none
  pricePerPieceSnake : Option Int := none
  mrp : Option Int := none
  productName : Option String := none
  category : Option String := none

deriving DecidableEq

/-- part_002 line 199: `productDoc.price ?? productDoc.pricePerPiece ??
productDoc.price_per_piece ?? 0`. -/
def p2UnitPrice (d : ProductDoc) : Int :=
  (d.price.orElse fun _ => d.pricePerPiece.orElse fun _ => d.pricePerPieceSnake).getD 0

/-- part_002 line 178 and 200: `Number(it.quantity ?? 1) || 1` — an absent or
zero quantity silently becomes 1 (the source's NaN case likewise becomes 1 and
is outside the integer domain); a negative quantity is kept. -/
def normQty : Option Int → Int
  | none => 1
  | some q => if q = 0 then 1 else q

/-- A line item of part_002 after its alias normalization (product-id aliases
`productId`/`product_id`/`product`/`id`/`$id`/`_id` are one field, quantity
aliases `quantity`/`qty`/`q` one field).  The `price` field is present in the
client payload but never read by part_002. -/
structure P2Item where
  productId : Option String := none
  quantity : Option Int := none
  price : Option Int := none

deriving DecidableEq

/-- A part_002 createOrder payload.  `subtotal` and `totalAmount` are client
fields that part_002 never reads. -/
structure P2Payload where
  userId : Option String := none
  items : List P2Item := []
  shippingAddress : Option String := none
  currency : Option String := none
  subtotal : Option Int := none
  totalAmount : Option Int := none

deriving DecidableEq

/-- The pricing loop of part_002 (lines 163-215), as a recursion over items.
Returns the productIds for which a catalog fetch was issued, and either the
first error (missing id, or `Product not found: <id>`) or the computed total
`sum(unitPrice * quantity)`. -/
def p2Resolve (cat : List (String × ProductDoc)) :
    List P2Item → List String × Except String Int
  | [] => ([], .ok 0)
  | it :: rest =>
    match truthyStr it.productId with
    | none => ([], .error "each item must include productId (or id/$id)")
    | some pid =>
      match cat.lookup pid with
      | none => ([pid], .error ("Product not found: " ++ pid))
      | some doc =>
        let line := p2UnitPrice doc * normQty it.quantity
        let r := p2Resolve cat rest
        (pid :: r.1, r.2.map fun t => line + t)

/-- The order document saved by part_002 (lines 246-260), restricted to the
fields the claims inspect (`items`, `razorpayOrderObj` and the serialized
shipping address carry no monetary information). -/
structure P2StoredDoc where
  userId : String
  subtotal : Int
  totalAmount : Int
  currency : String
  paymentStatus : String
  paymentProvider : String
  razorpayOrderId : String

deriving DecidableEq

/-- Result of a run of the part_002 createOrder, with traces of catalog
fetches, gateway calls and store writes. -/
structure P2Out where
  result : Except String CreateOk
  lookups : List String
  gatewayAmounts : List Int
  storedDocs : List P2StoredDoc

deriving DecidableEq

/-- part_002 lines 127-285 `createOrderAction`: requires `userId` and a
non-empty items array, recomputes the total from the catalog only, converts
it once with `toPaise`, then calls the gateway and writes the order. -/
def p2CreateOrder (cat : List (String × ProductDoc)) (gw : Int → Option String)
    (docId : String) (p : P2Payload) : P2Out :=
  match truthyStr p.userId with
  | none => ⟨.error "userId required", [], [], []⟩
  | some uid =>
    if p.items.isEmpty then ⟨.error "items array required", [], [], []⟩
    else
      match (p2Resolve cat p.items).2 with
      | .error e => ⟨.error e, (p2Resolve cat p.items).1, [], []⟩
      | .ok total =>
        if total ≤ 0 then
          ⟨.error "Invalid total computed from products", (p2Resolve cat p.items).1, [], []⟩
        else if toPaise total ≤ 0 then
          ⟨.error "Invalid amount after paise conversion", (p2Resolve cat p.items).1, [], []⟩
        else
          match gw (toPaise total) with
          | none =>
            ⟨.error "Razorpay create failed", (p2Resolve cat p.items).1, [toPaise total], []⟩
          | some rid =>
            ⟨.ok ⟨docId, rid, toPaise total, p.currency.getD "INR"⟩,
             (p2Resolve cat p.items).1, [toPaise total],
             [⟨uid, total, total, p.currency.getD "INR", "created", "razorpay", rid⟩]⟩

/-! ### Variant v3: src/index.js lines 637-951, createOrder with product linkage -/

/-- A line item of the v3 variant (`productId ?? id` is one field); here the
client-supplied `price` IS read, taking precedence over the catalog. -/
structure V3Item where
  productId : Option String := none
  quantity : Option Int := none
  price : Option Int := none

deriving DecidableEq

/-- A v3 createOrder payload. -/
structure V3Payload where
  userId : Option String := none
  items : List V3Item := []
  shippingAddress : Option String := none
  currency : Option String := none

deriving DecidableEq

/-- index.js line 748-750: `it.price ?? (productDoc?.price ??
productDoc?.pricePerPiece ?? productDoc?.mrp ?? 0)`. -/
def v3UnitPrice (d : ProductDoc) : Int :=
  (d.price.orElse fun _ => d.pricePerPiece.orElse fun _ => d.mrp).getD 0

/-- The pricing loop of the v3 variant (lines 731-767): an item without a
product id is skipped; a failed catalog fetch is only logged, the price
falling back to the client-supplied `it.price` or 0; nothing aborts. -/
def v3Resolve (cat : List (String × ProductDoc)) :
    List V3Item → List String × Int
  | [] => ([], 0)
  | it :: rest =>
    match truthyStr it.productId with
    | none => v3Resolve cat rest
    | some pid =>
      let pd := cat.lookup pid
      let qty := it.quantity.getD 1
      let price := it.price.getD ((pd.map v3UnitPrice).getD 0)
      let r := v3Resolve cat rest
      (pid :: r.1, qty * price + r.2)

/-- index.js lines 715-835 `createOrderAction` (v3): computes the total via
`v3Resolve`, errors only when the computed total is not positive, then calls
the gateway and writes the order document. -/
def v3CreateOrder (cat : List (String × ProductDoc)) (gw : Int → Option String)
    (docId : String) (p : V3Payload) : P2Out :=
  match truthyStr p.userId with
  | none => ⟨.error "userId required", [], [], []⟩
  | some uid =>
    if p.items.isEmpty then ⟨.error "items array required", [], [], []⟩
    else if (v3Resolve cat p.items).2 ≤ 0 then
      ⟨.error "Invalid total computed from products", (v3Resolve cat p.items).1, [], []⟩
    else
      match gw (toPaise (v3Resolve cat p.items).2) with
      | none =>
        ⟨.error "Razorpay create failed", (v3Resolve cat p.items).1,
         [toPaise (v3Resolve cat p.items).2], []⟩
      | some rid =>
        ⟨.ok ⟨docId, rid, toPaise (v3Resolve cat p.items).2, p.currency.getD "INR"⟩,
         (v3Resolve cat p.items).1, [toPaise (v3Resolve cat p.items).2],
         [⟨uid, (v3Resolve cat p.items).2, (v3Resolve cat p.items).2,
           p.currency.getD "INR", "created", "razorpay", rid⟩]⟩

/-! ### Variant v1: src/index.js lines 230-240, request routing -/

/-- The router-visible fields of a request object: an `action` field and a
`razorpayPaymentId` field. -/
structure RObj where
  action : Option String := none
  razorpayPaymentId : Option String := none

/-- A request body: its own router-visible fields plus an optional nested
`payload` object. -/
structure RBody where
  self : RObj := {}
  payload : Option RObj := none

/-- Which action the router runs. -/
inductive RAction where
  | create
  | verify

deriving DecidableEq

/-- src/index.js line 232: `(body && body.payload) || body`. -/
def routedPayload (b : RBody) : RObj := b.payload.getD b.self

/-- src/index.js line 231: `body.action || (body.payload && body.payload.action)`. -/
def actionFromBody (b : RBody) : Option String :=
  (truthyStr b.self.action).orElse fun _ =>
    match b.payload with
    | some pl => truthyStr pl.action
    | none => none

/-- src/index.js line 234: the action string that is lowercased. -/
def routedActionString (b : RBody) : String :=
  ((actionFromBody b).orElse fun _ =>
    (truthyStr (routedPayload b).action).orElse fun _ =>
      if (truthyStr (routedPayload b).razorpayPaymentId).isSome
      then some "verifyPayment" else some "createOrder").getD "createOrder"

/-- JavaScript `toString().toLowerCase()` on the action string (ASCII
lowercasing, modelled directly so that it evaluates in the kernel). -/
def lowerStr (s : String) : String := String.mk (s.data.map Char.toLower)

/-- src/index.js lines 230-240 `handleAction` dispatch: compare the lowercased
action string, then fall back on the presence of `razorpayPaymentId`. -/
def routeAction (b : RBody) : RAction :=
  let act := lowerStr (routedActionString b)
  if act = "createorder" then .create
  else if act = "verifypayment" then .verify
  else if (truthyStr (routedPayload b).razorpayPaymentId).isSome then .verify
  else .create

/-! ### Derived definitions used by the statements -/

/-- A gateway that always accepts and returns a fixed provider order id. -/
def okGateway : Int → Option String := fun _ => some "order_rzp1"

/-- The `totalAmount` value of the first stored document of a v1 run. -/
def v1StoredTotal (o : V1CreateOut) : Option JVal :=
  o.storedDocs.head?.bind (List.lookup "totalAmount")

/-- Erase the client-supplied price of an item (part_002 never reads it). -/
def scrubItem (it : P2Item) : P2Item := { it with price := none }

/-- Erase every client-supplied monetary field of a part_002 payload:
`subtotal`, `totalAmount` and each item's `price`. -/
def scrubMoney (p : P2Payload) : P2Payload :=
  { p with subtotal := none, totalAmount := none, items := p.items.map scrubItem }

/-- The specification's formula for the order total: the sum over items of
quantity times the catalog unit price (0 when the product is unknown). -/
def specCatalogTotal (cat : List (String × ProductDoc)) (items : List P2Item) : Int :=
  (items.map fun it =>
    it.quantity.getD 0 *
      ((it.productId.bind fun pid => (cat.lookup pid).map p2UnitPrice).getD 0)).sum

/-- A spec-valid line item: a non-empty product id that the catalog resolves,
and an explicit positive quantity. -/
def p2ItemValidB (cat : List (String × ProductDoc)) (it : P2Item) : Bool :=
  match truthyStr it.productId, it.quantity with
  | some pid, some q => (cat.lookup pid).isSome && decide (1 ≤ q)
  | _, _ => false

/-- An item whose (present) product id is missing from the catalog. -/
def p2ItemMissingB (cat : List (String × ProductDoc)) (it : P2Item) : Bool :=
  match truthyStr it.productId with
  | some pid => (cat.lookup pid).isNone
  | none => false

/-! ### Concrete instances used in counterexamples and witnesses -/

/-- A one-product catalog: product `p1` with catalog price 500 (the unit of
the spec scenario: minor units). -/
def cat500 : List (String × ProductDoc) := [("p1", { price := some 500 })]

def c1PayloadA : V1Payload :=
  { userId := some "u1", items := [⟨some 2, none⟩], totalAmount := some 7777 }

def c1PayloadB : V1Payload := { c1PayloadA with totalAmount := some 8888 }

/-- The c1 payload with an extra client-supplied key outside the whitelist. -/
def extrasPayload : V1Payload :=
  { c1PayloadA with extras := [("evil", JVal.num 1)] }

def c1P2PayloadA : P2Payload :=
  { userId := some "u1",
    items := [{ productId := some "p1", quantity := some 2, price := some 9 }],
    subtotal := some 3, totalAmount := some 4 }

def c1P2PayloadB : P2Payload :=
  { userId := some "u1",
    items := [{ productId := some "p1", quantity := some 2 }] }

def c4Store : List VDoc :=
  [{ id := "d1", paymentStatus := "created", paymentReference := none,
     razorpayOrderId := some "order_1", razorpayPaymentId := none,
     razorpaySignature := none }]

def c4Payload : VerifyPayload :=
  { orderId := none, razorpayPaymentId := some "pay_1",
    razorpayOrderId := some "order_1", razorpaySignature := some "sig" }

def c5V3Payload : V3Payload :=
  { userId := some "u1", items := [⟨some "pX", some 2, some 250⟩] }

def c5P2Payload : P2Payload :=
  { userId := some "u1", items := [{ productId := some "pX", quantity := some 1 }] }

def c6Payload : P2Payload :=
  { userId := some "u1", items := [{ productId := some "p1", quantity := some 2 }] }

def c8ZeroPayload : P2Payload :=
  { userId := some "u1", items := [{ productId := some "p1", quantity := some 0 }] }

def c8NegPayload : P2Payload :=
  { userId := some "u1", items := [{ productId := some "p1", quantity := some (-2) }] }

/-! ### Claim theorems -/

/-- The explicit action of a request: `body.action`, else
`body.payload.action` (which line 234 also reads via `payload.action`). -/
def explicitAction (b : RBody) : Option String :=
  (actionFromBody b).orElse fun _ => truthyStr (routedPayload b).action

/-- Concrete verify payload with a wrong (non-hex-length) signature. -/
def c2Payload : VerifyPayload :=
  { orderId := none, razorpayPaymentId := some "pay_1",
    razorpayOrderId := some "order_1", razorpaySignature := some "x" }

/-- Concrete verify payload with a wrong signature and an explicit orderId. -/
def c3Payload : VerifyPayload :=
  { orderId := some "d1", razorpayPaymentId := some "pay_2",
    razorpayOrderId := some "order_2", razorpaySignature := some "bad" }

/-- The correct signature, as a term, for order `order_1` / payment `pay_1`
under secret "sec". -/
def sigOrder1 : String := generateSignature "order_1" "pay_1" "sec"

/-- Verify payload carrying the correct signature and an explicit orderId. -/
def c4DirectPayload : VerifyPayload :=
  { orderId := some "d1", razorpayPaymentId := some "pay_1",
    razorpayOrderId := some "order_1", razorpaySignature := some sigOrder1 }

/-- Verify payload carrying the correct signature and no orderId. -/
def c4FallbackPayload : VerifyPayload :=
  { orderId := none, razorpayPaymentId := some "pay_1",
    razorpayOrderId := some "order_1", razorpaySignature := some sigOrder1 }

/-! ### Theorems -/

/-- FIPS 180-4 test vector: SHA-256 of "abc". -/
theorem sha256_abc_vector :
    hexStr (sha256 (strBytes "abc")) =
      "ba7816bf8f01cfea414140de5dae2223b00361a396177a9cb410ff61f20015ad" := by
  decide

/-- RFC-style HMAC-SHA256 test vector (key "key", quick-brown-fox message). -/
theorem hmac_sha256_vector :
    hexStr (hmacSha256 (strBytes "key")
        (strBytes "The quick brown fox jumps over the lazy dog")) =
      "f7bc83f430538424b13298e6aa6fb143ef4d59a14946175997479dbc2d1a3cd8" := by
  decide

/-- C1, counterexample.  In the v1 `createOrderAction` of src/index.js
(lines 79-170) the stored `totalAmount` is taken from the client-supplied
`totalAmount` field: two createOrder payloads that agree on every
non-monetary field and differ only in the client-supplied `totalAmount`
(7777 vs 8888) are both accepted and stored with different totals, so
client-supplied monetary fields do affect the stored total. -/
theorem c1_client_total_counterexample :
    c1PayloadA.userId = c1PayloadB.userId ∧
    c1PayloadA.items = c1PayloadB.items ∧
    c1PayloadA.shippingAddress = c1PayloadB.shippingAddress ∧
    c1PayloadA.currency = c1PayloadB.currency ∧
    c1PayloadA.extras = c1PayloadB.extras ∧
    v1StoredTotal (v1CreateOrder okGateway "doc1" c1PayloadA) = some (JVal.num 7777) ∧
    v1StoredTotal (v1CreateOrder okGateway "doc1" c1PayloadB) = some (JVal.num 8888) ∧
    JVal.num 7777 ≠ JVal.num 8888 := by
  decide

/-- C4, counterexample.  In the part_001 `verifyPaymentAction`, `orderId` is
mandatory, not optional: with `orderId` absent, the three provider fields
present, and a store that contains an order matching the supplied
`razorpayOrderId` (so the claimed lookup would resolve), the call returns the
missing-fields error and issues no lookup and no update. -/
theorem c4_mandatory_orderid_counterexample :
    p1Verify "sec" c4Store c4Payload =
      ⟨.error "Missing verification fields", c4Store, [], []⟩ ∧
    (c4Store.filter fun d => d.razorpayOrderId = some "order_1").head?.isSome = true := by
  decide

/-- C5, counterexample.  In the product-linkage `createOrderAction` of
src/index.js (lines 715-835) a productId absent from the catalog does not
abort the call: the fetch failure is only logged and the price falls back to
the client-supplied item price, so with an empty catalog and an unknown
product `pX` the call still reaches the gateway and writes a store record. -/
theorem c5_unknown_product_counterexample :
    ([] : List (String × ProductDoc)).lookup "pX" = none ∧
    (v3CreateOrder [] okGateway "doc1" c5V3Payload).lookups = ["pX"] ∧
    (v3CreateOrder [] okGateway "doc1" c5V3Payload).result =
      .ok ⟨"doc1", "order_rzp1", 50000, "INR"⟩ ∧
    (v3CreateOrder [] okGateway "doc1" c5V3Payload).gatewayAmounts ≠ [] ∧
    (v3CreateOrder [] okGateway "doc1" c5V3Payload).storedDocs ≠ [] := by
  decide

/-- C6, counterexample.  With catalog price `p1 = 500` minor units and items
`[{productId: "p1", quantity: 2}]`, part_002 computes the total 1000 but
calls the gateway with `toPaise 1000 = 100000`, not 1000: the magnitude
heuristic of `toPaise` multiplies a minor-unit total below 1e6 by 100
again. -/
theorem c6_gateway_amount_counterexample :
    (p2CreateOrder cat500 okGateway "doc1" c6Payload).storedDocs.map
        P2StoredDoc.totalAmount = [1000] ∧
    (p2CreateOrder cat500 okGateway "doc1" c6Payload).gatewayAmounts = [100000] ∧
    (p2CreateOrder cat500 okGateway "doc1" c6Payload).gatewayAmounts ≠ [1000] := by
  decide

/-- C8, counterexample.  In part_002 a zero quantity is not a validation
error: for items `[{productId: "p1", quantity: 0}]` the catalog lookup for
that item is performed, the quantity is silently defaulted to 1, and the call
succeeds (claim: it must fail with a validation error before any catalog
lookup for that item). -/
theorem c8_zero_quantity_counterexample :
    (p2CreateOrder cat500 okGateway "doc1" c8ZeroPayload).lookups = ["p1"] ∧
    (p2CreateOrder cat500 okGateway "doc1" c8ZeroPayload).result =
      .ok ⟨"doc1", "order_rzp1", 50000, "INR"⟩ ∧
    (p2CreateOrder cat500 okGateway "doc1" c8ZeroPayload).storedDocs.map
        P2StoredDoc.totalAmount = [500] := by
  decide

/-- C8, amended.  What part_002 actually does with bad quantities: an absent
or zero quantity is silently defaulted to 1 (`Number(q ?? 1) || 1`), so a
zero-quantity item prices as one unit after its catalog lookup; a negative
quantity is kept, and a request whose computed total becomes non-positive
fails only with the post-loop "Invalid total computed from products" error,
after the catalog lookup and before any gateway call or store write. -/
theorem c8_amended_quantity_defaulting :
    normQty (some 0) = 1 ∧ normQty none = 1 ∧ normQty (some (-2)) = -2 ∧
    (p2CreateOrder cat500 okGateway "doc1" c8ZeroPayload).result =
      .ok ⟨"doc1", "order_rzp1", 50000, "INR"⟩ ∧
    (p2CreateOrder cat500 okGateway "doc1" c8ZeroPayload).storedDocs.map
        P2StoredDoc.totalAmount = [500] ∧
    (p2CreateOrder cat500 okGateway "doc1" c8NegPayload).result =
      .error "Invalid total computed from products" ∧
    (p2CreateOrder cat500 okGateway "doc1" c8NegPayload).lookups = ["p1"] ∧
    (p2CreateOrder cat500 okGateway "doc1" c8NegPayload).gatewayAmounts = [] ∧
    (p2CreateOrder cat500 okGateway "doc1" c8NegPayload).storedDocs = [] := by
  decide

/-- The keys of a v1 order document are exactly the whitelist. -/
theorem c10_key_aux (uid : String) (p : V1Payload) (t : Int) (rid : String) :
    (v1DocPayload uid p t rid).map Prod.fst = allowedFields := rfl

/-- The document list written by a v1 createOrder run is empty or a single
whitelisted document. -/
theorem v1CreateOrder_storedDocs_shape (gw : Int → Option String) (d : String)
    (p : V1Payload) :
    (v1CreateOrder gw d p).storedDocs = [] ∨
      ∃ uid t rid, (v1CreateOrder gw d p).storedDocs = [v1DocPayload uid p t rid] := by
  unfold v1CreateOrder
  repeat' split
  all_goals first
  | exact .inl rfl
  | exact .inr ⟨_, _, _, rfl⟩

/-- C10.  Every key of a v1 order document is in `allowedFields`, and the
keys of every document written by the v1 createOrder are exactly that
whitelist, for every client payload: no client-supplied key outside the
whitelist can reach the persisted document. -/
theorem c10_doc_keys_whitelist :
    (∀ uid p t rid, (v1DocPayload uid p t rid).map Prod.fst = allowedFields) ∧
    (∀ gw d p doc, doc ∈ (v1CreateOrder gw d p).storedDocs →
       doc.map Prod.fst = allowedFields) := by
  refine ⟨fun uid p t rid => rfl, fun gw d p doc hdoc => ?_⟩
  rcases v1CreateOrder_storedDocs_shape gw d p with h | ⟨uid, t, rid, h⟩
  · rw [h] at hdoc; exact absurd hdoc (List.not_mem_nil doc)
  · rw [h, List.mem_singleton] at hdoc
    subst hdoc
    exact c10_key_aux uid p t rid

/-- C10, witness: the document written for a concrete payload that carries an
extra client key ("evil") has exactly the whitelisted keys. -/
theorem c10_doc_keys_whitelist_witness :
    (v1DocPayload "u1" extrasPayload 7777 "order_rzp1").map Prod.fst = allowedFields :=
  c10_doc_keys_whitelist.2 okGateway "doc1" extrasPayload
    (v1DocPayload "u1" extrasPayload 7777 "order_rzp1") (by decide)

/-- When an explicit action is present, it is the routed action string. -/
theorem routedActionString_of_explicit (b : RBody) (a : String)
    (h : explicitAction b = some a) : routedActionString b = a := by
  unfold explicitAction at h
  unfold routedActionString
  cases hA : actionFromBody b with
  | some a2 =>
    rw [hA] at h
    simp only [Option.orElse] at h ⊢
    exact congrArg (Option.getD · "createOrder") h
  | none =>
    rw [hA] at h
    simp only [Option.orElse] at h ⊢
    rw [h]
    rfl

/-- When no explicit action is present, the routed action string is decided
by the presence of `razorpayPaymentId`. -/
theorem routedActionString_of_no_explicit (b : RBody)
    (h : explicitAction b = none) :
    routedActionString b =
      (if (truthyStr (routedPayload b).razorpayPaymentId).isSome
       then "verifyPayment" else "createOrder") := by
  unfold explicitAction at h
  unfold routedActionString
  cases hA : actionFromBody b with
  | some a2 => rw [hA] at h; simp [Option.orElse] at h
  | none =>
    rw [hA] at h
    simp only [Option.orElse] at h ⊢
    rw [h]
    cases hP : (truthyStr (routedPayload b).razorpayPaymentId).isSome <;>
      simp [Option.orElse, hP]

/-- C9.  Request routing of src/index.js lines 230-240: a present explicit
action field selects the action case-insensitively ("createOrder" in any
capitalization runs creation, "verifyPayment" runs verification); with no
action field, a payload carrying a (truthy) `razorpayPaymentId` is dispatched
to verifyPayment and every other payload to createOrder. -/
theorem c9_router_dispatch :
    (∀ b a, explicitAction b = some a →
       (lowerStr a = "createorder" → routeAction b = .create) ∧
       (lowerStr a = "verifypayment" → routeAction b = .verify)) ∧
    (∀ b, explicitAction b = none →
       ((truthyStr (routedPayload b).razorpayPaymentId).isSome →
          routeAction b = .verify) ∧
       (truthyStr (routedPayload b).razorpayPaymentId = none →
          routeAction b = .create)) := by
  constructor
  · intro b a h
    have hs := routedActionString_of_explicit b a h
    constructor <;> intro hl <;> unfold routeAction <;> rw [hs, hl] <;> rfl
  · intro b h
    have hs := routedActionString_of_no_explicit b h
    constructor
    · intro hp
      unfold routeAction
      rw [hs, if_pos hp]
      rfl
    · intro hp
      unfold routeAction
      rw [hs, hp]
      rfl

/-- C9, witness: an explicit mixed-case action routes by the action; absent
action routes by `razorpayPaymentId` presence. -/
theorem c9_router_dispatch_witness :
    routeAction { self := { action := some "CreateOrder" } } = RAction.create ∧
    routeAction { self := { action := some "verifyPayment" } } = RAction.verify ∧
    routeAction { self := {}, payload := some { razorpayPaymentId := some "pay_1" } } =
      RAction.verify ∧
    routeAction { self := {} } = RAction.create := by
  refine ⟨(c9_router_dispatch.1 _ "CreateOrder" (by decide)).1 (by decide),
          (c9_router_dispatch.1 _ "verifyPayment" (by decide)).2 (by decide),
          (c9_router_dispatch.2 _ (by decide)).1 (by decide),
          (c9_router_dispatch.2 _ (by decide)).2 (by decide)⟩

/-- A verify run with a falsy mandatory provider field returns the
missing-fields error and touches nothing. -/
theorem v1Verify_missing (secret : String) (store : List VDoc) (p : VerifyPayload)
    (h : truthyStr p.razorpayPaymentId = none ∨ truthyStr p.razorpayOrderId = none ∨
         truthyStr p.razorpaySignature = none) :
    v1Verify secret store p =
      ⟨.error "Missing verification fields (razorpayPaymentId, razorpayOrderId, razorpaySignature required)",
       store, [], []⟩ := by
  unfold v1Verify
  rcases h with h | h | h
  · rw [h]
  · cases hA : truthyStr p.razorpayPaymentId <;> rw [h]
  · cases hA : truthyStr p.razorpayPaymentId <;>
      cases hB : truthyStr p.razorpayOrderId <;> rw [h]

/-- A verify run with all provider fields present and a mismatched signature
returns the Invalid-signature error, leaves the store unchanged, and issues
no lookup and no update. -/
theorem v1Verify_badsig (secret : String) (store : List VDoc) (p : VerifyPayload)
    (rpid roid rsig : String)
    (h1 : truthyStr p.razorpayPaymentId = some rpid)
    (h2 : truthyStr p.razorpayOrderId = some roid)
    (h3 : truthyStr p.razorpaySignature = some rsig)
    (hne : rsig ≠ generateSignature roid rpid secret) :
    v1Verify secret store p = ⟨.error "Invalid signature", store, [], []⟩ := by
  unfold v1Verify
  rw [h1, h2, h3]
  dsimp only
  rw [if_neg hne]

/-- A verify run with a good signature and an explicit `orderId` goes
directly to the single update call on that id. -/
theorem v1Verify_direct (secret : String) (store : List VDoc) (p : VerifyPayload)
    (rpid roid rsig i : String)
    (h1 : truthyStr p.razorpayPaymentId = some rpid)
    (h2 : truthyStr p.razorpayOrderId = some roid)
    (h3 : truthyStr p.razorpaySignature = some rsig)
    (hsig : rsig = generateSignature roid rpid secret)
    (h4 : truthyStr p.orderId = some i) :
    v1Verify secret store p = v1VerifyFinish store rpid rsig i [] := by
  unfold v1Verify
  rw [h1, h2, h3]
  dsimp only
  rw [if_pos hsig, h4]

/-- A verify run with a good signature and no `orderId` resolves the target
through the `razorpayOrderId` lookup when that lookup finds a document. -/
theorem v1Verify_fallback_found (secret : String) (store : List VDoc)
    (p : VerifyPayload) (rpid roid rsig : String) (d : VDoc)
    (h1 : truthyStr p.razorpayPaymentId = some rpid)
    (h2 : truthyStr p.razorpayOrderId = some roid)
    (h3 : truthyStr p.razorpaySignature = some rsig)
    (hsig : rsig = generateSignature roid rpid secret)
    (h4 : truthyStr p.orderId = none)
    (h5 : (store.filter fun d2 => d2.razorpayOrderId = some roid).head? = some d) :
    v1Verify secret store p = v1VerifyFinish store rpid rsig d.id [roid] := by
  unfold v1Verify
  rw [h1, h2, h3]
  dsimp only
  rw [if_pos hsig, h4, h5]

/-- A verify run with a good signature, no `orderId`, and an empty lookup
result returns the not-found error with no update call. -/
theorem v1Verify_fallback_none (secret : String) (store : List VDoc)
    (p : VerifyPayload) (rpid roid rsig : String)
    (h1 : truthyStr p.razorpayPaymentId = some rpid)
    (h2 : truthyStr p.razorpayOrderId = some roid)
    (h3 : truthyStr p.razorpaySignature = some rsig)
    (hsig : rsig = generateSignature roid rpid secret)
    (h4 : truthyStr p.orderId = none)
    (h5 : (store.filter fun d2 => d2.razorpayOrderId = some roid).head? = none) :
    v1Verify secret store p =
      ⟨.error "Order document not found for verification. Provide valid orderId or ensure DB contains razorpayOrderId.",
       store, [roid], []⟩ := by
  unfold v1Verify
  rw [h1, h2, h3]
  dsimp only
  rw [if_pos hsig, h4, h5]

/-- The update call of a resolved verify run targets exactly the resolved id. -/
theorem v1VerifyFinish_updateCalls (store : List VDoc) (rpid rsig i : String)
    (lc : List String) : (v1VerifyFinish store rpid rsig i lc).updateCalls = [i] := by
  unfold v1VerifyFinish
  split <;> rfl

/-- The lookup trace of a resolved verify run is exactly the lookups already
performed before the update. -/
theorem v1VerifyFinish_listCalls (store : List VDoc) (rpid rsig i : String)
    (lc : List String) : (v1VerifyFinish store rpid rsig i lc).listCalls = lc := by
  unfold v1VerifyFinish
  split <;> rfl

/-- C2.  The expected signature is the hex-encoded HMAC-SHA256 of
`providerOrderId + "|" + providerPaymentId` under the shared secret (a pure,
hence deterministic, function of those inputs), and the v1 verifyPayment
succeeds only if the supplied signature equals it exactly as a string
(case-sensitive), returning the "Invalid signature" error on any mismatch. -/
theorem c2_signature_exact_match :
    (∀ o i s, generateSignature o i s =
        hexStr (hmacSha256 (strBytes s) (strBytes (o ++ "|" ++ i)))) ∧
    (∀ secret store p rpid roid rsig,
        truthyStr p.razorpayPaymentId = some rpid →
        truthyStr p.razorpayOrderId = some roid →
        truthyStr p.razorpaySignature = some rsig →
        (rsig ≠ generateSignature roid rpid secret →
           v1Verify secret store p = ⟨.error "Invalid signature", store, [], []⟩) ∧
        (∀ i2, (v1Verify secret store p).result = .ok i2 →
           rsig = generateSignature roid rpid secret)) := by
  refine ⟨fun o i s => rfl,
          fun secret store p rpid roid rsig h1 h2 h3 =>
            ⟨fun hne => v1Verify_badsig secret store p rpid roid rsig h1 h2 h3 hne,
             fun i2 hok => ?_⟩⟩
  by_contra hne
  rw [v1Verify_badsig secret store p rpid roid rsig h1 h2 h3 hne] at hok
  exact Except.noConfusion hok

/-- C2, witness: a mismatched supplied signature "x" is rejected with the
Invalid-signature error. -/
theorem c2_signature_exact_match_witness :
    v1Verify "sec" [] c2Payload = ⟨.error "Invalid signature", [], [], []⟩ :=
  (c2_signature_exact_match.2 "sec" [] c2Payload "pay_1" "order_1" "x"
      (by decide) (by decide) (by decide)).1 (by decide)

/-- C3.  On a signature mismatch the v1 verifyPayment returns the
Invalid-signature error, leaves the store untouched and issues no update; in
every run there is at most one update call, and an update call happens only
when the three provider fields are present, the supplied signature equals the
expected HMAC, and the target order was resolved (directly by `orderId` or
through the `razorpayOrderId` lookup). -/
theorem c3_invalid_signature_no_update :
    (∀ secret store p rpid roid rsig,
        truthyStr p.razorpayPaymentId = some rpid →
        truthyStr p.razorpayOrderId = some roid →
        truthyStr p.razorpaySignature = some rsig →
        rsig ≠ generateSignature roid rpid secret →
        (v1Verify secret store p).result = .error "Invalid signature" ∧
        (v1Verify secret store p).store = store ∧
        (v1Verify secret store p).updateCalls = []) ∧
    (∀ secret store p, (v1Verify secret store p).updateCalls.length ≤ 1) ∧
    (∀ secret store p i, i ∈ (v1Verify secret store p).updateCalls →
        ∃ rpid roid rsig,
          truthyStr p.razorpayPaymentId = some rpid ∧
          truthyStr p.razorpayOrderId = some roid ∧
          truthyStr p.razorpaySignature = some rsig ∧
          rsig = generateSignature roid rpid secret ∧
          (truthyStr p.orderId = some i ∨
           truthyStr p.orderId = none ∧
             ∃ d, (store.filter fun d2 => d2.razorpayOrderId = some roid).head? = some d ∧
               d.id = i)) := by
  refine ⟨fun secret store p rpid roid rsig h1 h2 h3 hne => ?_, ?_, ?_⟩
  · rw [v1Verify_badsig secret store p rpid roid rsig h1 h2 h3 hne]
    exact ⟨rfl, rfl, rfl⟩
  · intro secret store p
    cases h1 : truthyStr p.razorpayPaymentId with
    | none => rw [v1Verify_missing secret store p (Or.inl h1)]; simp
    | some rpid =>
      cases h2 : truthyStr p.razorpayOrderId with
      | none => rw [v1Verify_missing secret store p (Or.inr (Or.inl h2))]; simp
      | some roid =>
        cases h3 : truthyStr p.razorpaySignature with
        | none => rw [v1Verify_missing secret store p (Or.inr (Or.inr h3))]; simp
        | some rsig =>
          by_cases hsig : rsig = generateSignature roid rpid secret
          · cases h4 : truthyStr p.orderId with
            | some i0 =>
              rw [v1Verify_direct secret store p rpid roid rsig i0 h1 h2 h3 hsig h4,
                  v1VerifyFinish_updateCalls]
              simp
            | none =>
              cases h5 : (store.filter fun d2 => d2.razorpayOrderId = some roid).head? with
              | some d =>
                rw [v1Verify_fallback_found secret store p rpid roid rsig d h1 h2 h3 hsig h4 h5,
                    v1VerifyFinish_updateCalls]
                simp
              | none =>
                rw [v1Verify_fallback_none secret store p rpid roid rsig h1 h2 h3 hsig h4 h5]
                simp
          · rw [v1Verify_badsig secret store p rpid roid rsig h1 h2 h3 hsig]; simp
  · intro secret store p i hi
    cases h1 : truthyStr p.razorpayPaymentId with
    | none => rw [v1Verify_missing secret store p (Or.inl h1)] at hi; simp at hi
    | some rpid =>
      cases h2 : truthyStr p.razorpayOrderId with
      | none => rw [v1Verify_missing secret store p (Or.inr (Or.inl h2))] at hi; simp at hi
      | some roid =>
        cases h3 : truthyStr p.razorpaySignature with
        | none => rw [v1Verify_missing secret store p (Or.inr (Or.inr h3))] at hi; simp at hi
        | some rsig =>
          by_cases hsig : rsig = generateSignature roid rpid secret
          · cases h4 : truthyStr p.orderId with
            | some i0 =>
              rw [v1Verify_direct secret store p rpid roid rsig i0 h1 h2 h3 hsig h4,
                  v1VerifyFinish_updateCalls, List.mem_singleton] at hi
              subst hi
              exact ⟨rpid, roid, rsig, rfl, rfl, rfl, hsig, Or.inl rfl⟩
            | none =>
              cases h5 : (store.filter fun d2 => d2.razorpayOrderId = some roid).head? with
              | some d =>
                rw [v1Verify_fallback_found secret store p rpid roid rsig d h1 h2 h3 hsig h4 h5,
                    v1VerifyFinish_updateCalls, List.mem_singleton] at hi
                subst hi
                exact ⟨rpid, roid, rsig, rfl, rfl, rfl, hsig, Or.inr ⟨rfl, d, h5, rfl⟩⟩
              | none =>
                rw [v1Verify_fallback_none secret store p rpid roid rsig h1 h2 h3 hsig h4 h5] at hi
                simp at hi
          · rw [v1Verify_badsig secret store p rpid roid rsig h1 h2 h3 hsig] at hi; simp at hi

/-- C3, witness: a mismatched signature on a store holding `d1` yields the
Invalid-signature error, an unchanged store and no update call; the run also
has at most one update call. -/
theorem c3_invalid_signature_no_update_witness :
    ((v1Verify "k2" c4Store c3Payload).result = .error "Invalid signature" ∧
     (v1Verify "k2" c4Store c3Payload).store = c4Store ∧
     (v1Verify "k2" c4Store c3Payload).updateCalls = []) ∧
    (v1Verify "k2" c4Store c3Payload).updateCalls.length ≤ 1 :=
  ⟨c3_invalid_signature_no_update.1 "k2" c4Store c3Payload "pay_2" "order_2" "bad"
      (by decide) (by decide) (by decide) (by decide),
   c3_invalid_signature_no_update.2.1 "k2" c4Store c3Payload⟩

/-- C4, amended.  In the fallback variant of verifyPayment
(src/index.js lines 173-227, and likewise part_002), the claim holds:
`razorpayPaymentId`, `razorpayOrderId`, `razorpaySignature` are mandatory,
`orderId` is optional — when given, the update targets it directly with no
lookup; otherwise the order is resolved by the `razorpayOrderId` lookup, and
the order-not-found error occurs exactly when neither resolves.  In the
part_000/part_001 variants, however, `orderId` is also mandatory and no
lookup fallback exists (see the counterexample). -/
theorem c4_amended_order_resolution :
    (∀ secret store p,
        (truthyStr p.razorpayPaymentId = none ∨ truthyStr p.razorpayOrderId = none ∨
         truthyStr p.razorpaySignature = none) →
        (v1Verify secret store p).result =
          .error "Missing verification fields (razorpayPaymentId, razorpayOrderId, razorpaySignature required)") ∧
    (∀ secret store p rpid roid rsig i,
        truthyStr p.razorpayPaymentId = some rpid →
        truthyStr p.razorpayOrderId = some roid →
        truthyStr p.razorpaySignature = some rsig →
        rsig = generateSignature roid rpid secret →
        truthyStr p.orderId = some i →
        (v1Verify secret store p).updateCalls = [i] ∧
        (v1Verify secret store p).listCalls = []) ∧
    (∀ secret store p rpid roid rsig d,
        truthyStr p.razorpayPaymentId = some rpid →
        truthyStr p.razorpayOrderId = some roid →
        truthyStr p.razorpaySignature = some rsig →
        rsig = generateSignature roid rpid secret →
        truthyStr p.orderId = none →
        (store.filter fun d2 => d2.razorpayOrderId = some roid).head? = some d →
        (v1Verify secret store p).updateCalls = [d.id] ∧
        (v1Verify secret store p).listCalls = [roid]) ∧
    (∀ secret store p rpid roid rsig,
        truthyStr p.razorpayPaymentId = some rpid →
        truthyStr p.razorpayOrderId = some roid →
        truthyStr p.razorpaySignature = some rsig →
        rsig = generateSignature roid rpid secret →
        truthyStr p.orderId = none →
        (store.filter fun d2 => d2.razorpayOrderId = some roid).head? = none →
        (v1Verify secret store p).result =
          .error "Order document not found for verification. Provide valid orderId or ensure DB contains razorpayOrderId." ∧
        (v1Verify secret store p).updateCalls = []) := by
  refine ⟨fun secret store p h => ?_,
          fun secret store p rpid roid rsig i h1 h2 h3 hsig h4 => ?_,
          fun secret store p rpid roid rsig d h1 h2 h3 hsig h4 h5 => ?_,
          fun secret store p rpid roid rsig h1 h2 h3 hsig h4 h5 => ?_⟩
  · rw [v1Verify_missing secret store p h]
  · rw [v1Verify_direct secret store p rpid roid rsig i h1 h2 h3 hsig h4]
    exact ⟨v1VerifyFinish_updateCalls store rpid rsig i [],
           v1VerifyFinish_listCalls store rpid rsig i []⟩
  · rw [v1Verify_fallback_found secret store p rpid roid rsig d h1 h2 h3 hsig h4 h5]
    exact ⟨v1VerifyFinish_updateCalls store rpid rsig d.id [roid],
           v1VerifyFinish_listCalls store rpid rsig d.id [roid]⟩
  · rw [v1Verify_fallback_none secret store p rpid roid rsig h1 h2 h3 hsig h4 h5]
    exact ⟨rfl, rfl⟩

/-- C4, amended, witness: with the correct signature, an explicit `orderId`
is used directly with no lookup, and with `orderId` absent the order is
resolved by the `razorpayOrderId` lookup. -/
theorem c4_amended_order_resolution_witness :
    ((v1Verify "sec" c4Store c4DirectPayload).updateCalls = ["d1"] ∧
     (v1Verify "sec" c4Store c4DirectPayload).listCalls = []) ∧
    ((v1Verify "sec" c4Store c4FallbackPayload).updateCalls = ["d1"] ∧
     (v1Verify "sec" c4Store c4FallbackPayload).listCalls = ["order_1"]) :=
  ⟨c4_amended_order_resolution.2.1 "sec" c4Store c4DirectPayload
      "pay_1" "order_1" sigOrder1 "d1" (by decide) (by decide) (by decide) rfl (by decide),
   c4_amended_order_resolution.2.2.1 "sec" c4Store c4FallbackPayload
      "pay_1" "order_1" sigOrder1
      ⟨"d1", "created", none, some "order_1", none, none⟩
      (by decide) (by decide) (by decide) rfl (by decide) (by decide)⟩

/-- Updating a document twice with the same verification data is the same as
updating it once. -/
theorem applyUpdate_idem (i rpid rsig : String) (store : List VDoc) :
    applyUpdate i (vUpdateDoc rpid rsig) (applyUpdate i (vUpdateDoc rpid rsig) store) =
      applyUpdate i (vUpdateDoc rpid rsig) store := by
  unfold applyUpdate
  rw [List.map_map]
  apply List.map_congr_left
  intro d _
  by_cases h : d.id = i
  · simp [Function.comp, h, vUpdateDoc]
  · simp [Function.comp, h]

/-- The verification update does not create or destroy document ids. -/
theorem containsId_applyUpdate (i j rpid rsig : String) (store : List VDoc) :
    containsId (applyUpdate i (vUpdateDoc rpid rsig) store) j = containsId store j := by
  unfold containsId applyUpdate
  rw [List.any_map]
  congr 1
  funext d
  by_cases h : d.id = i
  · simp [Function.comp, h, vUpdateDoc]
  · simp [Function.comp, h]

/-- The verification update does not change which documents match a
`razorpayOrderId` lookup. -/
theorem filter_applyUpdate (i rpid rsig roid : String) (store : List VDoc) :
    (applyUpdate i (vUpdateDoc rpid rsig) store).filter
        (fun d2 => d2.razorpayOrderId = some roid) =
      (store.filter fun d2 => d2.razorpayOrderId = some roid).map
        (fun d => if d.id = i then vUpdateDoc rpid rsig d else d) := by
  unfold applyUpdate
  rw [List.filter_map]
  congr 1
  apply List.filter_congr
  intro d _
  by_cases h : d.id = i
  · simp [Function.comp, h, vUpdateDoc]
  · simp [Function.comp, h]

/-- A successful finish means the target id was present; the result echoes
the id and the store is the one-document update. -/
theorem v1VerifyFinish_ok (store : List VDoc) (rpid rsig i0 : String)
    (lc : List String) (j : String)
    (h : (v1VerifyFinish store rpid rsig i0 lc).result = .ok j) :
    containsId store i0 = true ∧ j = i0 ∧
      (v1VerifyFinish store rpid rsig i0 lc).store =
        applyUpdate i0 (vUpdateDoc rpid rsig) store := by
  by_cases hc : containsId store i0 = true
  · unfold v1VerifyFinish at h ⊢
    rw [if_pos hc] at h ⊢
    exact ⟨hc, (Except.ok.inj h).symm, rfl⟩
  · unfold v1VerifyFinish at h
    rw [if_neg hc] at h
    exact Except.noConfusion h

/-- C7.  Verification with the v1 verifyPayment is idempotent: if a verify
call succeeds (after it the order is Paid with the payment id and signature
recorded), repeating the identical call succeeds again with the same result
and leaves the store — in particular the order's `razorpayPaymentId` and
`razorpaySignature` — completely unchanged. -/
theorem c7_verify_idempotent :
    ∀ secret store p i, (v1Verify secret store p).result = .ok i →
      (v1Verify secret (v1Verify secret store p).store p).result = .ok i ∧
      (v1Verify secret (v1Verify secret store p).store p).store =
        (v1Verify secret store p).store := by
  intro secret store p i hok
  cases h1 : truthyStr p.razorpayPaymentId with
  | none => rw [v1Verify_missing secret store p (Or.inl h1)] at hok; exact Except.noConfusion hok
  | some rpid =>
  cases h2 : truthyStr p.razorpayOrderId with
  | none =>
    rw [v1Verify_missing secret store p (Or.inr (Or.inl h2))] at hok
    exact Except.noConfusion hok
  | some roid =>
  cases h3 : truthyStr p.razorpaySignature with
  | none =>
    rw [v1Verify_missing secret store p (Or.inr (Or.inr h3))] at hok
    exact Except.noConfusion hok
  | some rsig =>
  by_cases hsig : rsig = generateSignature roid rpid secret
  · cases h4 : truthyStr p.orderId with
    | some i0 =>
      rw [v1Verify_direct secret store p rpid roid rsig i0 h1 h2 h3 hsig h4] at hok ⊢
      obtain ⟨hc, hji, hst⟩ := v1VerifyFinish_ok store rpid rsig i0 [] i hok
      subst hji
      rw [hst]
      rw [v1Verify_direct secret (applyUpdate i (vUpdateDoc rpid rsig) store) p
            rpid roid rsig i h1 h2 h3 hsig h4]
      have hc2 : containsId (applyUpdate i (vUpdateDoc rpid rsig) store) i = true := by
        rw [containsId_applyUpdate]; exact hc
      constructor
      · unfold v1VerifyFinish
        rw [if_pos hc2]
      · unfold v1VerifyFinish
        rw [if_pos hc2]
        exact applyUpdate_idem i rpid rsig store
    | none =>
      cases h5 : (store.filter fun d2 => d2.razorpayOrderId = some roid).head? with
      | none =>
        rw [v1Verify_fallback_none secret store p rpid roid rsig h1 h2 h3 hsig h4 h5] at hok
        exact Except.noConfusion hok
      | some d =>
        rw [v1Verify_fallback_found secret store p rpid roid rsig d h1 h2 h3 hsig h4 h5]
          at hok ⊢
        obtain ⟨hc, hji, hst⟩ := v1VerifyFinish_ok store rpid rsig d.id [roid] i hok
        subst hji
        rw [hst]
        have h5' : ((applyUpdate d.id (vUpdateDoc rpid rsig) store).filter
              (fun d2 => d2.razorpayOrderId = some roid)).head? =
            some (vUpdateDoc rpid rsig d) := by
          rw [filter_applyUpdate, List.head?_map, h5]
          simp
        rw [v1Verify_fallback_found secret (applyUpdate d.id (vUpdateDoc rpid rsig) store) p
              rpid roid rsig (vUpdateDoc rpid rsig d) h1 h2 h3 hsig h4 h5']
        have hidEq : (vUpdateDoc rpid rsig d).id = d.id := rfl
        rw [hidEq]
        have hc2 : containsId (applyUpdate d.id (vUpdateDoc rpid rsig) store) d.id = true := by
          rw [containsId_applyUpdate]; exact hc
        constructor
        · unfold v1VerifyFinish
          rw [if_pos hc2]
        · unfold v1VerifyFinish
          rw [if_pos hc2]
          exact applyUpdate_idem d.id rpid rsig store
  · rw [v1Verify_badsig secret store p rpid roid rsig h1 h2 h3 hsig] at hok
    exact Except.noConfusion hok

/-- C7, witness: verifying order `d1` twice with the same correct signature
succeeds both times and the second call changes nothing. -/
theorem c7_verify_idempotent_witness :
    (v1Verify "sec" (v1Verify "sec" c4Store c4DirectPayload).store c4DirectPayload).result =
      .ok "d1" ∧
    (v1Verify "sec" (v1Verify "sec" c4Store c4DirectPayload).store c4DirectPayload).store =
      (v1Verify "sec" c4Store c4DirectPayload).store :=
  c7_verify_idempotent "sec" c4Store c4DirectPayload "d1" (by decide)

/-- A truthy optional string is that string. -/
theorem truthyStr_eq_some (o : Option String) (s : String)
    (h : truthyStr o = some s) : o = some s := by
  cases o with
  | none => exact Option.noConfusion h
  | some t =>
    unfold truthyStr at h
    dsimp only at h
    by_cases ht : t = ""
    · rw [if_pos ht] at h; exact Option.noConfusion h
    · rw [if_neg ht] at h; exact h

/-- Mapping a list does not change emptiness. -/
theorem listIsEmpty_map {α β : Type} (f : α → β) (l : List α) :
    (l.map f).isEmpty = l.isEmpty := by
  cases l <;> rfl

/-- The part_002 pricing loop never reads an item's client price. -/
theorem p2Resolve_scrub (cat : List (String × ProductDoc)) (items : List P2Item) :
    p2Resolve cat (items.map scrubItem) = p2Resolve cat items := by
  induction items with
  | nil => rfl
  | cons it rest ih =>
    rw [List.map_cons]
    unfold p2Resolve
    simp only [scrubItem]
    cases truthyStr it.productId with
    | none => rfl
    | some pid =>
      dsimp only
      cases cat.lookup pid with
      | none => rfl
      | some doc =>
        dsimp only
        rw [ih]

/-- part_002's createOrder depends only on the money-scrubbed payload. -/
theorem p2CreateOrder_scrub (cat : List (String × ProductDoc))
    (gw : Int → Option String) (d : String) (p : P2Payload) :
    p2CreateOrder cat gw d (scrubMoney p) = p2CreateOrder cat gw d p := by
  unfold p2CreateOrder scrubMoney
  dsimp only
  cases truthyStr p.userId with
  | none => rfl
  | some uid =>
    dsimp only
    rw [p2Resolve_scrub, listIsEmpty_map]

/-- On a list of spec-valid items the pricing loop succeeds and returns the
specification's sum of quantity times catalog unit price. -/
theorem p2Resolve_valid (cat : List (String × ProductDoc)) (items : List P2Item)
    (h : items.all (p2ItemValidB cat) = true) :
    (p2Resolve cat items).2 = .ok (specCatalogTotal cat items) := by
  induction items with
  | nil => rfl
  | cons it rest ih =>
    rw [List.all_cons, Bool.and_eq_true] at h
    obtain ⟨h1, h2⟩ := h
    unfold p2ItemValidB at h1
    cases htp : truthyStr it.productId with
    | none => rw [htp] at h1; exact Bool.noConfusion h1
    | some pid =>
      cases htq : it.quantity with
      | none => rw [htp, htq] at h1; exact Bool.noConfusion h1
      | some q =>
        rw [htp, htq] at h1
        dsimp only at h1
        cases hlk : cat.lookup pid with
        | none => rw [hlk] at h1; exact Bool.noConfusion h1
        | some doc =>
          rw [hlk] at h1
          rw [Bool.and_eq_true, decide_eq_true_iff] at h1
          have hq1 : 1 ≤ q := h1.2
          have hpid : it.productId = some pid := truthyStr_eq_some _ _ htp
          unfold p2Resolve
          rw [htp]
          dsimp only
          rw [hlk]
          dsimp only
          rw [ih h2]
          have hnq : normQty it.quantity = q := by
            rw [htq]
            unfold normQty
            dsimp only
            rw [if_neg (by omega)]
          unfold specCatalogTotal
          rw [List.map_cons, List.sum_cons, hnq, htq, hpid]
          dsimp only [Option.bind, Option.getD, Option.map]
          rw [hlk]
          simp [Except.map]
          ring

/-- The store-write trace of a part_002 run is empty or one record whose
totals are the resolver's computed total. -/
theorem p2CreateOrder_storedDocs_shape (cat : List (String × ProductDoc))
    (gw : Int → Option String) (d : String) (p : P2Payload) :
    (p2CreateOrder cat gw d p).storedDocs = [] ∨
      ∃ uid total rid, (p2Resolve cat p.items).2 = .ok total ∧
        (p2CreateOrder cat gw d p).storedDocs =
          [⟨uid, total, total, p.currency.getD "INR", "created", "razorpay", rid⟩] := by
  unfold p2CreateOrder
  repeat' split
  all_goals first
  | exact .inl rfl
  | exact .inr ⟨_, _, _, by assumption, rfl⟩

/-- The gateway trace of a part_002 run is empty or one amount, obtained from
the resolver's total by a single `toPaise` conversion. -/
theorem p2CreateOrder_gatewayAmounts_shape (cat : List (String × ProductDoc))
    (gw : Int → Option String) (d : String) (p : P2Payload) :
    (p2CreateOrder cat gw d p).gatewayAmounts = [] ∨
      ∃ t, (p2Resolve cat p.items).2 = .ok t ∧
        (p2CreateOrder cat gw d p).gatewayAmounts = [toPaise t] := by
  unfold p2CreateOrder
  repeat' split
  all_goals first
  | exact .inl rfl
  | exact .inr ⟨_, by assumption, rfl⟩

/-- C1, amended.  In the part_002 `createOrderAction` the claim holds: the
action's outcome is invariant under every client-supplied monetary field
(item `price`, `subtotal`, `totalAmount`), and for a valid item list (all
product ids resolved by the catalog, positive quantities) every stored
record's `totalAmount` is the sum over items of quantity times the catalog
unit price.  In the v1 variant (src/index.js lines 79-170) and in
part_000/part_001, by contrast, the stored total is taken from the
client-supplied `totalAmount`/`subtotal`/item prices (see the
counterexample). -/
theorem c1_amended_catalog_total :
    (∀ cat gw d p q, scrubMoney p = scrubMoney q →
        p2CreateOrder cat gw d p = p2CreateOrder cat gw d q) ∧
    (∀ cat gw d p, p.items.all (p2ItemValidB cat) = true →
        ∀ doc ∈ (p2CreateOrder cat gw d p).storedDocs,
          doc.totalAmount = specCatalogTotal cat p.items) := by
  constructor
  · intro cat gw d p q hpq
    calc p2CreateOrder cat gw d p
        = p2CreateOrder cat gw d (scrubMoney p) := (p2CreateOrder_scrub cat gw d p).symm
      _ = p2CreateOrder cat gw d (scrubMoney q) := by rw [hpq]
      _ = p2CreateOrder cat gw d q := p2CreateOrder_scrub cat gw d q
  · intro cat gw d p hvalid doc hdoc
    rcases p2CreateOrder_storedDocs_shape cat gw d p with h | ⟨uid, total, rid, hres, h⟩
    · rw [h] at hdoc; exact absurd hdoc (List.not_mem_nil doc)
    · rw [h, List.mem_singleton] at hdoc
      subst hdoc
      rw [p2Resolve_valid cat p.items hvalid] at hres
      exact (Except.ok.inj hres).symm

/-- C1, amended, witness: a payload carrying client `price`/`subtotal`/
`totalAmount` values produces the same run as the same payload without them,
and the stored total for catalog price 500 and quantity 2 is the
specification sum (1000). -/
theorem c1_amended_catalog_total_witness :
    p2CreateOrder cat500 okGateway "doc1" c1P2PayloadA =
      p2CreateOrder cat500 okGateway "doc1" c1P2PayloadB ∧
    (⟨"u1", 1000, 1000, "INR", "created", "razorpay", "order_rzp1"⟩ :
        P2StoredDoc).totalAmount = specCatalogTotal cat500 c1P2PayloadA.items :=
  ⟨c1_amended_catalog_total.1 cat500 okGateway "doc1" c1P2PayloadA c1P2PayloadB (by decide),
   c1_amended_catalog_total.2 cat500 okGateway "doc1" c1P2PayloadA (by decide)
     ⟨"u1", 1000, 1000, "INR", "created", "razorpay", "order_rzp1"⟩ (by decide)⟩

/-- When every item has a product id and some product id is missing from the
catalog, the part_002 pricing loop fails with the error naming the first
missing id. -/
theorem p2Resolve_missing_product (cat : List (String × ProductDoc)) :
    ∀ items : List P2Item,
      items.all (fun it => (truthyStr it.productId).isSome) = true →
      items.any (p2ItemMissingB cat) = true →
      ∃ it ∈ items, ∃ pid, truthyStr it.productId = some pid ∧
        cat.lookup pid = none ∧
        (p2Resolve cat items).2 = .error ("Product not found: " ++ pid) := by
  intro items
  induction items with
  | nil => intro _ hany; simp at hany
  | cons it rest ih =>
    intro hall hany
    rw [List.all_cons, Bool.and_eq_true] at hall
    obtain ⟨h1, h2⟩ := hall
    cases htp : truthyStr it.productId with
    | none => rw [htp] at h1; exact Bool.noConfusion h1
    | some pid =>
      cases hlk : cat.lookup pid with
      | none =>
        refine ⟨it, List.mem_cons_self it rest, pid, htp, hlk, ?_⟩
        unfold p2Resolve
        rw [htp]
        dsimp only
        rw [hlk]
      | some doc =>
        have hmiss : p2ItemMissingB cat it = false := by
          unfold p2ItemMissingB
          rw [htp]
          dsimp only
          rw [hlk]
          rfl
        rw [List.any_cons, hmiss, Bool.false_or] at hany
        obtain ⟨it2, hmem, pid2, htp2, hlk2, hres⟩ := ih h2 hany
        refine ⟨it2, List.mem_cons_of_mem it hmem, pid2, htp2, hlk2, ?_⟩
        unfold p2Resolve
        rw [htp]
        dsimp only
        rw [hlk]
        dsimp only
        rw [hres]
        rfl

/-- C5, amended.  In part_002 the claim holds: a createOrder request (truthy
`userId`, every item carrying a product id) whose item list contains a
product id absent from the catalog fails with the error naming that id, with
no gateway call and no store write — partial pricing work is discarded.  The
index.js product-linkage variant instead falls back to the client price on a
missing product and can proceed (see the counterexample). -/
theorem c5_amended_unknown_product_fails :
    ∀ cat gw d p,
      (truthyStr (P2Payload.userId p)).isSome = true →
      (P2Payload.items p).all (fun it => (truthyStr it.productId).isSome) = true →
      (P2Payload.items p).any (p2ItemMissingB cat) = true →
      ∃ it ∈ P2Payload.items p, ∃ pid, truthyStr it.productId = some pid ∧
        cat.lookup pid = none ∧
        (p2CreateOrder cat gw d p).result = .error ("Product not found: " ++ pid) ∧
        (p2CreateOrder cat gw d p).gatewayAmounts = [] ∧
        (p2CreateOrder cat gw d p).storedDocs = [] := by
  intro cat gw d p hu hall hany
  obtain ⟨it, hmem, pid, htp, hlk, hres⟩ :=
    p2Resolve_missing_product cat p.items hall hany
  refine ⟨it, hmem, pid, htp, hlk, ?_⟩
  have hne : p.items.isEmpty = false := by
    cases hp : p.items with
    | nil => rw [hp] at hany; simp at hany
    | cons a l => rfl
  cases hu' : truthyStr p.userId with
  | none => rw [hu'] at hu; exact Bool.noConfusion hu
  | some uid =>
    unfold p2CreateOrder
    rw [hu']
    dsimp only
    rw [hne, if_neg Bool.false_ne_true, hres]
    exact ⟨rfl, rfl, rfl⟩

/-- C5, amended, witness: with catalog `{p1}` and the single-item payload for
the unknown product `pX`, createOrder fails naming `pX`, with no gateway call
and no store write. -/
theorem c5_amended_unknown_product_fails_witness :
    (p2CreateOrder cat500 okGateway "doc1" c5P2Payload).result =
      .error ("Product not found: " ++ "pX") ∧
    (p2CreateOrder cat500 okGateway "doc1" c5P2Payload).gatewayAmounts = [] ∧
    (p2CreateOrder cat500 okGateway "doc1" c5P2Payload).storedDocs = [] := by
  obtain ⟨it, hmem, pid, htp, hlk, h1, h2, h3⟩ :=
    c5_amended_unknown_product_fails cat500 okGateway "doc1" c5P2Payload
      (by decide) (by decide) (by decide)
  have hit : it = { productId := some "pX", quantity := some 1 } := by
    rw [show c5P2Payload.items = [{ productId := some "pX", quantity := some 1 }] from rfl,
        List.mem_singleton] at hmem
    exact hmem
  rw [hit] at htp
  have hpid : pid = "pX" := by
    simp [truthyStr] at htp
    exact htp.symm
  rw [hpid] at h1
  exact ⟨h1, h2, h3⟩

/-- C6, amended.  For the spec scenario (catalog price 500, quantity 2) the
part_002 flow computes and stores the total 1000 but calls the gateway with
`toPaise 1000 = 100000`: `toPaise` multiplies any positive integral total
below 1e6 by 100, so a total already in minor units is converted again.  The
conversion itself is applied exactly once: every gateway call of the flow
carries exactly `toPaise` of the resolver's total. -/
theorem c6_amended_single_conversion :
    ((p2CreateOrder cat500 okGateway "doc1" c6Payload).storedDocs.map
        P2StoredDoc.totalAmount = [1000] ∧
     (p2CreateOrder cat500 okGateway "doc1" c6Payload).gatewayAmounts = [toPaise 1000] ∧
     toPaise 1000 = 100000) ∧
    (∀ cat gw d p a, a ∈ (p2CreateOrder cat gw d p).gatewayAmounts →
       ∃ t, (p2Resolve cat (P2Payload.items p)).2 = .ok t ∧ a = toPaise t) := by
  refine ⟨⟨by decide, by decide, by decide⟩, ?_⟩
  intro cat gw d p a ha
  rcases p2CreateOrder_gatewayAmounts_shape cat gw d p with h | ⟨t, hres, h⟩
  · rw [h] at ha; exact absurd ha (List.not_mem_nil a)
  · rw [h, List.mem_singleton] at ha
    exact ⟨t, hres, ha⟩

/-- C6, amended, witness: the single gateway amount 100000 of the scenario
run is `toPaise` of the resolver total. -/
theorem c6_amended_single_conversion_witness :
    (p2Resolve cat500 (P2Payload.items c6Payload)).2 = .ok 1000 ∧
    (100000 : Int) = toPaise 1000 := by
  obtain ⟨t, h1, h2⟩ :=
    c6_amended_single_conversion.2 cat500 okGateway "doc1" c6Payload 100000 (by decide)
  have hr : (p2Resolve cat500 (P2Payload.items c6Payload)).2 = .ok 1000 := by decide
  have ht : t = 1000 := by
    rw [hr] at h1
    exact (Except.ok.inj h1).symm
  rw [ht] at h2
  exact ⟨hr, h2⟩
